import Mathlib

/-!
Verification of the growable byte buffer (`rtc::Buffer`) of this repository.

The repository ships only the unit tests (`src/base/buffer_unittest.cc`);
the buffer implementation (`webrtc/base/buffer.h`) is not part of the
sources. The definitions below are therefore modelled from the spec,
pinned by the unit-test assertions wherever those speak: the tests force
exact-fit growth (`TestSetSizeLarger` expects capacity exactly 20,
`TestEnsureCapacityLarger` expects capacity exactly 10) and force `data()`
to keep returning the storage pointer of a cleared-but-still-allocated
buffer (`TestClear`).

Storage addresses are abstracted as natural numbers, `0` standing for the
null pointer. Operations that may allocate take an extra `fresh` argument:
the address the allocator would hand out for a new block. Freshness
(`fresh ≠ 0`, `fresh ≠` any live address) is supplied as a hypothesis where
a theorem needs it. Contract violations (fatal `RTC_CHECK` / precondition
failures in the spec) are modelled as `Option.none`.
-/

namespace RtcBuffer

/-- Modelled from the spec: the `rtc::Buffer` data model — an owned
contiguous byte region (`storage`, whose length is the capacity), an
abstract storage address (`addr`, `0` = null, required to be `0` exactly
when capacity is `0`), and the logical `size` of valid bytes at the front. -/
structure Buffer where
  addr : Nat
  storage : List Nat
  size : Nat
deriving Repr, DecidableEq

/-- Modelled from the spec: `capacity()` — total allocated bytes. -/
def capacity (b : Buffer) : Nat := b.storage.length

/-- Modelled from the spec and the unit tests: `data()` — the raw storage
pointer. The spec sentence claims it is null when `size` is 0, but
`TestClear` in `src/base/buffer_unittest.cc` asserts that after `Clear()`
(size 0, capacity 15) `data()` still equals the pre-clear non-null
pointer, so the tests pin `data()` to the storage pointer itself: null
exactly when the buffer owns no storage. -/
def dataPtr (b : Buffer) : Nat := b.addr

/-- Modelled from the spec: the logically valid bytes `[0, size)`. -/
def contents (b : Buffer) : List Nat := b.storage.take b.size

/-- Modelled from the spec: the buffer invariants — `size ≤ capacity`, and
the storage pointer is null exactly when capacity is 0. -/
def WF (b : Buffer) : Prop :=
  b.size ≤ capacity b ∧ (b.addr = 0 ↔ capacity b = 0)

instance (b : Buffer) : Decidable (WF b) := by
  unfold WF; infer_instance

/-- Modelled from the spec: `Buffer()` — size 0, capacity 0, no allocation. -/
def emptyBuf : Buffer := ⟨0, [], 0⟩

/-- Modelled from the spec: `Buffer(count, capacity)` — requesting a
capacity smaller than `count` is a contract violation (`none`); otherwise
size is `count` and capacity is the requested capacity (uninitialized
bytes are modelled as zeros). The spec's §8 testable property fixes
`size() == count`. -/
def construct (count cap fresh : Nat) : Option Buffer :=
  if cap < count then none
  else some ⟨if cap = 0 then 0 else fresh, List.replicate cap 0, count⟩

/-- Modelled from the spec: `Buffer(source, length[, capacity])` — copies
the source bytes into newly allocated storage of capacity
`max(length, capacity)` (default capacity = length); zero capacity means
no allocation and a null pointer. -/
def constructData (src : List Nat) (cap fresh : Nat) : Buffer :=
  ⟨if max src.length cap = 0 then 0 else fresh,
   src ++ List.replicate (max src.length cap - src.length) 0,
   src.length⟩

/-- Modelled from the spec: copy construction — a deep copy of the logical
bytes; the copy's capacity is the source's size, not its capacity. -/
def copyCtor (b : Buffer) (fresh : Nat) : Buffer :=
  constructData (contents b) 0 fresh

/-- Modelled from the spec: `EnsureCapacity(n)` — no-op when `n` is within
capacity; otherwise reallocates to exactly `n` bytes (exact fit, as the
unit tests pin down), copying the `size` valid bytes to the new block. -/
def ensureCapacity (b : Buffer) (n fresh : Nat) : Buffer :=
  if n ≤ capacity b then b
  else ⟨fresh, b.storage.take b.size ++ List.replicate (n - b.size) 0, b.size⟩

/-- Modelled from the spec: `SetSize(n)` — ensure capacity `n`, then set
the size to `n`. -/
def setSize (b : Buffer) (n fresh : Nat) : Buffer :=
  let b1 := ensureCapacity b n fresh
  ⟨b1.addr, b1.storage, n⟩

/-- Modelled from the spec: `Clear()` — size becomes 0; capacity and
storage untouched. -/
def clear (b : Buffer) : Buffer := ⟨b.addr, b.storage, 0⟩

/-- Helper: overwrite the region `[off, off + src.length)` of a storage
block with `src`, leaving the rest in place. -/
def writeAt (stor : List Nat) (off : Nat) (src : List Nat) : List Nat :=
  stor.take off ++ src ++ stor.drop (off + src.length)

/-- Modelled from the spec: pointer-based `AppendData(source, length)` —
ensure capacity `size + length`, copy the new bytes at offset `size`,
advance `size` by `length`. -/
def appendData (b : Buffer) (src : List Nat) (fresh : Nat) : Buffer :=
  let b1 := ensureCapacity b (b.size + src.length) fresh
  ⟨b1.addr, writeAt b1.storage b.size src, b.size + src.length⟩

/-- Modelled from the spec: pointer-based `SetData(source, length)` —
destructive replacement: afterwards `size == capacity == length` and the
contents are the source bytes (fresh storage when length is positive). -/
def setData (b : Buffer) (src : List Nat) (fresh : Nat) : Buffer :=
  constructData src 0 fresh

/-- Modelled from the spec: callback-based `AppendData(length, f)` — the
callback receives the writable view of exactly `length` bytes starting at
the end of data and reports how many bytes it wrote. The callback is
modelled as a function from the view's current contents to (new view
contents, written count); reporting more than `length` written, or
escaping the view's bounds, is a contract violation (`none`). Returns the
updated buffer and the written count; `size` advances by the written
count only. -/
def appendDataF (b : Buffer) (len : Nat) (f : List Nat → List Nat × Nat)
    (fresh : Nat) : Option (Buffer × Nat) :=
  let old := b.size
  let b1 := setSize b (old + len) fresh
  let r := f ((b1.storage.drop old).take len)
  if r.2 ≤ len ∧ r.1.length = len then
    some (⟨b1.addr, writeAt b1.storage old r.1, old + r.2⟩, r.2)
  else none

/-- Modelled from the spec: callback-based `SetData(length, f)` — reset
the size to 0, then append through the callback (room for up to `length`
bytes is reserved; the final size is the written count). -/
def setDataF (b : Buffer) (len : Nat) (f : List Nat → List Nat × Nat)
    (fresh : Nat) : Option (Buffer × Nat) :=
  appendDataF (clear b) len f fresh

/-- Modelled from the spec: move (the explicit `DEPRECATED_Pass` ownership
transfer and move assignment) — returns (destination, source-afterwards):
the destination takes the storage pointer, size and capacity unchanged;
the source becomes size 0, capacity 0, null storage. -/
def moveFrom (b : Buffer) : Buffer × Buffer :=
  (⟨b.addr, b.storage, b.size⟩, ⟨0, [], 0⟩)

/-- Modelled from the spec: `operator==` — sizes equal and the bytes in
`[0, size)` identical (`memcmp` over the valid region); capacity plays no
role. -/
def bufferEqB (a b : Buffer) : Bool :=
  a.size == b.size && contents a == contents b

/-- Signed-byte reinterpretation used by the typed `ArrayView<int8_t>`
variant: a stored byte read as a signed 8-bit value. -/
def byteToInt8 (v : Nat) : Int :=
  if v < 128 then (v : Int) else (v : Int) - 256

/-- Signed-byte reinterpretation: a signed 8-bit value written back to a
storage byte. -/
def int8ToByte (i : Int) : Nat := (i % 256).toNat

/-- Modelled from the spec: the typed callback overload
`AppendData<int8_t>(length, g)` — the same storage viewed through the
signed element type: the callback sees the view's bytes as signed values
and the values it writes are stored back as bytes. -/
def appendDataFSigned (b : Buffer) (len : Nat)
    (g : List Int → List Int × Nat) (fresh : Nat) : Option (Buffer × Nat) :=
  appendDataF b len
    (fun v =>
      let r := g (v.map byteToInt8)
      (r.1.map int8ToByte, r.2)) fresh

/-- Modelled from the spec: the typed callback overload
`SetData<int8_t>(length, g)`. -/
def setDataFSigned (b : Buffer) (len : Nat)
    (g : List Int → List Int × Nat) (fresh : Nat) : Option (Buffer × Nat) :=
  appendDataFSigned (clear b) len g fresh

/-- Modelled from the spec: copy assignment — replaces the destination's
entire contents with the source's logical bytes (deep copy; the
destination's capacity becomes the source's size). -/
def copyAssign (dst src : Buffer) (fresh : Nat) : Buffer :=
  setData dst (contents src) fresh

/-- Test fixture `kTestData` from `src/base/buffer_unittest.cc`: the bytes
`0x0 .. 0xf`. -/
def kTestData : List Nat :=
  [0x0, 0x1, 0x2, 0x3, 0x4, 0x5, 0x6, 0x7,
   0x8, 0x9, 0xa, 0xb, 0xc, 0xd, 0xe, 0xf]

/-- Callback of `TestLambdaSetAppend`: fill all 15 view bytes from
`kTestData` and report 15 written. -/
def lambdaSetter (v : List Nat) : List Nat × Nat :=
  (kTestData.take 15 ++ v.drop 15, 15)

/-- Callback of `TestLambdaAppendPartial`: fill only 7 of the 15 view
bytes and report 7 written (the rest of the view keeps its old bytes). -/
def lambdaSetter7 (v : List Nat) : List Nat × Nat :=
  (kTestData.take 7 ++ v.drop 7, 7)

/-! General lemmas about the modelled operations. -/

theorem ensure_size (b : Buffer) (n fresh : Nat) :
    (ensureCapacity b n fresh).size = b.size := by
  unfold ensureCapacity
  split <;> rfl

theorem ensure_of_le (b : Buffer) (n fresh : Nat) (h : n ≤ capacity b) :
    ensureCapacity b n fresh = b := by
  unfold ensureCapacity
  rw [if_pos h]

theorem ensure_capacity_max (b : Buffer) (n fresh : Nat)
    (h : b.size ≤ capacity b) :
    capacity (ensureCapacity b n fresh) = max (capacity b) n := by
  unfold ensureCapacity
  split
  · omega
  · simp only [capacity, List.length_append, List.length_take,
      List.length_replicate] at *
    omega

theorem ensure_take (b : Buffer) (n fresh : Nat) (h : b.size ≤ capacity b) :
    (ensureCapacity b n fresh).storage.take b.size = b.storage.take b.size := by
  unfold ensureCapacity
  split
  · rfl
  · show (b.storage.take b.size ++ _).take b.size = _
    rw [List.take_append_eq_append_take, List.take_take]
    simp only [List.length_take, List.length_replicate]
    have h1 : min b.size b.size = b.size := by omega
    have h2 : b.size - min b.size b.storage.length = 0 := by
      simp only [capacity] at h; omega
    rw [h1, h2]
    simp

theorem ensure_addr_of_lt (b : Buffer) (n fresh : Nat) (h : capacity b < n) :
    (ensureCapacity b n fresh).addr = fresh := by
  unfold ensureCapacity
  rw [if_neg (by omega)]

theorem ensure_WF (b : Buffer) (n fresh : Nat) (hb : WF b) (hf : fresh ≠ 0) :
    WF (ensureCapacity b n fresh) := by
  obtain ⟨h1, h2⟩ := hb
  by_cases h : n ≤ capacity b
  · rw [ensure_of_le b n fresh h]; exact ⟨h1, h2⟩
  · constructor
    · rw [ensure_size, ensure_capacity_max b n fresh h1]; omega
    · rw [ensure_capacity_max b n fresh h1, ensure_addr_of_lt b n fresh (by omega)]
      constructor
      · intro hc; exact absurd hc hf
      · intro hc; omega

theorem writeAt_length (stor : List Nat) (off : Nat) (src : List Nat)
    (h : off + src.length ≤ stor.length) :
    (writeAt stor off src).length = stor.length := by
  unfold writeAt
  simp only [List.length_append, List.length_take, List.length_drop]
  omega

theorem writeAt_take (stor : List Nat) (off : Nat) (src : List Nat)
    (h : off ≤ stor.length) :
    (writeAt stor off src).take off = stor.take off := by
  unfold writeAt
  rw [List.append_assoc]
  exact List.take_left' (by simp only [List.length_take]; omega)

theorem writeAt_region (stor : List Nat) (off : Nat) (src : List Nat)
    (h : off ≤ stor.length) :
    ((writeAt stor off src).drop off).take src.length = src := by
  unfold writeAt
  rw [List.append_assoc,
    List.drop_left' (by simp only [List.length_take]; omega)]
  exact List.take_left' rfl

theorem append_size (b : Buffer) (src : List Nat) (fresh : Nat) :
    (appendData b src fresh).size = b.size + src.length := rfl

theorem append_capacity (b : Buffer) (src : List Nat) (fresh : Nat)
    (h : b.size ≤ capacity b) :
    capacity (appendData b src fresh) = max (capacity b) (b.size + src.length) := by
  have hle : b.size + src.length ≤
      capacity (ensureCapacity b (b.size + src.length) fresh) := by
    rw [ensure_capacity_max b (b.size + src.length) fresh h]; omega
  show (writeAt (ensureCapacity b (b.size + src.length) fresh).storage
      b.size src).length = _
  rw [writeAt_length _ _ _ hle]
  exact ensure_capacity_max b (b.size + src.length) fresh h

theorem append_contents (b : Buffer) (src : List Nat) (fresh : Nat)
    (h : b.size ≤ capacity b) :
    contents (appendData b src fresh) = contents b ++ src := by
  have hcap : b.size + src.length ≤
      capacity (ensureCapacity b (b.size + src.length) fresh) := by
    rw [ensure_capacity_max b (b.size + src.length) fresh h]; omega
  have hAS : (((ensureCapacity b (b.size + src.length) fresh).storage.take
      b.size) ++ src).length = b.size + src.length := by
    simp only [List.length_append, List.length_take, capacity] at hcap ⊢
    omega
  show (writeAt (ensureCapacity b (b.size + src.length) fresh).storage
      b.size src).take (b.size + src.length) = contents b ++ src
  unfold writeAt
  rw [List.take_left' hAS, ensure_take b (b.size + src.length) fresh h]
  rfl

theorem append_addr_of_le (b : Buffer) (src : List Nat) (fresh : Nat)
    (h : b.size + src.length ≤ capacity b) :
    dataPtr (appendData b src fresh) = dataPtr b := by
  unfold appendData
  show (ensureCapacity b (b.size + src.length) fresh).addr = b.addr
  rw [ensure_of_le b (b.size + src.length) fresh h]

theorem append_WF (b : Buffer) (src : List Nat) (fresh : Nat)
    (hb : WF b) (hf : fresh ≠ 0) :
    WF (appendData b src fresh) := by
  obtain ⟨h1, h2⟩ := hb
  have hcap := ensure_capacity_max b (b.size + src.length) fresh h1
  have hwf := ensure_WF b (b.size + src.length) fresh ⟨h1, h2⟩ hf
  constructor
  · rw [append_size, append_capacity b src fresh h1]; omega
  · show (ensureCapacity b (b.size + src.length) fresh).addr = 0 ↔ _
    rw [append_capacity b src fresh h1, ← hcap]
    exact hwf.2

theorem ensure_contents (b : Buffer) (n fresh : Nat) (h : b.size ≤ capacity b) :
    contents (ensureCapacity b n fresh) = contents b := by
  show (ensureCapacity b n fresh).storage.take (ensureCapacity b n fresh).size =
    b.storage.take b.size
  rw [ensure_size, ensure_take b n fresh h]

theorem bufferEqB_eq_true_iff (a b : Buffer) :
    bufferEqB a b = true ↔ a.size = b.size ∧ contents a = contents b := by
  unfold bufferEqB
  simp

theorem setData_size (b : Buffer) (src : List Nat) (fresh : Nat) :
    (setData b src fresh).size = src.length := rfl

theorem setData_capacity (b : Buffer) (src : List Nat) (fresh : Nat) :
    capacity (setData b src fresh) = src.length := by
  show (src ++ List.replicate (max src.length 0 - src.length) 0).length = _
  simp

theorem setData_contents (b : Buffer) (src : List Nat) (fresh : Nat) :
    contents (setData b src fresh) = src := by
  show (src ++ List.replicate (max src.length 0 - src.length) 0).take
    src.length = src
  exact List.take_left' rfl

theorem clear_contents (b : Buffer) : contents (clear b) = [] := by
  show b.storage.take 0 = []
  rfl

theorem int8_roundtrip (v : Nat) (h : v < 256) :
    int8ToByte (byteToInt8 v) = v := by
  unfold byteToInt8 int8ToByte
  split <;> omega

theorem map_int8_roundtrip (src : List Nat) (h : ∀ x ∈ src, x < 256) :
    (src.map byteToInt8).map int8ToByte = src := by
  induction src with
  | nil => rfl
  | cons a t ih =>
    simp only [List.map_cons, List.cons.injEq]
    constructor
    · exact int8_roundtrip a (h a (List.mem_cons_self a t))
    · exact ih (fun x hx => h x (List.mem_cons_of_mem a hx))

theorem appendDataF_const (a : Buffer) (src : List Nat) (fresh : Nat) :
    appendDataF a src.length (fun _ => (src, src.length)) fresh =
      some (appendData a src fresh, src.length) := by
  unfold appendDataF
  rw [if_pos ⟨Nat.le_refl _, rfl⟩]
  rfl

theorem appendDataFSigned_const (a : Buffer) (src : List Nat) (fresh : Nat)
    (h : ∀ x ∈ src, x < 256) :
    appendDataFSigned a src.length
        (fun _ => (src.map byteToInt8, src.length)) fresh =
      some (appendData a src fresh, src.length) := by
  unfold appendDataFSigned
  simp only [map_int8_roundtrip src h]
  exact appendDataF_const a src fresh

/-! Replays of the unit tests of `src/base/buffer_unittest.cc` against the
model, validating that the modelled operations satisfy every assertion the
repository's tests make. -/

/-- Replay of `TestConstructEmpty`. -/
theorem replay_construct_empty :
    emptyBuf.size = 0 ∧ capacity emptyBuf = 0 ∧
    construct 0 0 1 = some emptyBuf ∧
    (∀ b, construct 0 10 1 = some b → b.size = 0 ∧ capacity b = 10) ∧
    (constructData [] 0 1).size = 0 ∧ capacity (constructData [] 0 1) = 0 ∧
    (constructData [] 20 1).size = 0 ∧ capacity (constructData [] 20 1) = 20 := by
  refine ⟨rfl, rfl, rfl, ?_, rfl, rfl, rfl, rfl⟩
  intro b h
  cases h
  exact ⟨rfl, rfl⟩

/-- Replay of `TestConstructData` and `TestConstructDataWithCapacity`. -/
theorem replay_construct_data :
    (constructData (kTestData.take 7) 0 1).size = 7 ∧
    capacity (constructData (kTestData.take 7) 0 1) = 7 ∧
    contents (constructData (kTestData.take 7) 0 1) = kTestData.take 7 ∧
    (constructData (kTestData.take 7) 14 1).size = 7 ∧
    capacity (constructData (kTestData.take 7) 14 1) = 14 ∧
    contents (constructData (kTestData.take 7) 14 1) = kTestData.take 7 := by
  decide

/-- Replay of `TestConstructCopy`: the copy of a 16-byte buffer has size
16, capacity 16, the same contents, a distinct data pointer, and compares
equal to the source. -/
theorem replay_construct_copy :
    (copyCtor (constructData kTestData 0 1) 2).size = 16 ∧
    capacity (copyCtor (constructData kTestData 0 1) 2) = 16 ∧
    contents (copyCtor (constructData kTestData 0 1) 2) = kTestData ∧
    dataPtr (copyCtor (constructData kTestData 0 1) 2) ≠
      dataPtr (constructData kTestData 0 1) ∧
    bufferEqB (copyCtor (constructData kTestData 0 1) 2)
      (constructData kTestData 0 1) = true := by
  decide

/-- Replay of `TestAssign`: copy assignment (destructive `SetData` from the
source's logical bytes) makes the buffers equal with distinct pointers. -/
theorem replay_assign :
    bufferEqB emptyBuf (constructData kTestData 256 1) = false ∧
    bufferEqB (setData emptyBuf (contents (constructData kTestData 256 1)) 2)
      (constructData kTestData 256 1) = true ∧
    dataPtr (setData emptyBuf (contents (constructData kTestData 256 1)) 2) ≠
      dataPtr (constructData kTestData 256 1) := by
  decide

/-- Replay of `TestSetData`. -/
theorem replay_set_data :
    (setData (constructData ((kTestData.drop 4).take 7) 0 1)
        (kTestData.take 9) 2).size = 9 ∧
    capacity (setData (constructData ((kTestData.drop 4).take 7) 0 1)
        (kTestData.take 9) 2) = 9 ∧
    contents (setData (constructData ((kTestData.drop 4).take 7) 0 1)
        (kTestData.take 9) 2) = kTestData.take 9 := by
  decide

/-- Replay of `TestAppendData`: appending `{0xa, 0xb}` to `{0x4, 0x5, 0x6}`
gives `{0x4, 0x5, 0x6, 0xa, 0xb}`. -/
theorem replay_append_data :
    bufferEqB
      (appendData (constructData ((kTestData.drop 4).take 3) 0 1)
        ((kTestData.drop 10).take 2) 2)
      (constructData [0x4, 0x5, 0x6, 0xa, 0xb] 0 3) = true := by
  decide

/-- Replay of `TestSetSizeSmaller` and `TestSetSizeLarger`. -/
theorem replay_set_size :
    (setSize (setData emptyBuf (kTestData.take 15) 1) 10 2).size = 10 ∧
    capacity (setSize (setData emptyBuf (kTestData.take 15) 1) 10 2) = 15 ∧
    bufferEqB (setSize (setData emptyBuf (kTestData.take 15) 1) 10 2)
      (constructData (kTestData.take 10) 0 3) = true ∧
    (setSize (setData emptyBuf (kTestData.take 15) 1) 20 2).size = 20 ∧
    capacity (setSize (setData emptyBuf (kTestData.take 15) 1) 20 2) = 20 ∧
    (contents (setSize (setData emptyBuf (kTestData.take 15) 1) 20 2)).take 15 =
      kTestData.take 15 := by
  decide

/-- Replay of `TestEnsureCapacitySmaller`: within capacity, nothing changes
(capacity has not shrunk, no reallocation). -/
theorem replay_ensure_capacity_smaller :
    ensureCapacity (constructData kTestData 0 1) 4 2 =
      constructData kTestData 0 1 := by
  decide

/-- Replay of `TestEnsureCapacityLarger`: growing to 10 then appending 5
bytes within the ensured capacity keeps the data pointer. -/
theorem replay_ensure_capacity_larger :
    capacity (ensureCapacity (constructData (kTestData.take 5) 0 1) 10 2) = 10 ∧
    dataPtr (appendData (ensureCapacity (constructData (kTestData.take 5) 0 1) 10 2)
        ((kTestData.drop 5).take 5) 3) =
      dataPtr (ensureCapacity (constructData (kTestData.take 5) 0 1) 10 2) ∧
    bufferEqB (appendData (ensureCapacity (constructData (kTestData.take 5) 0 1) 10 2)
        ((kTestData.drop 5).take 5) 3)
      (constructData (kTestData.take 10) 0 4) = true := by
  decide

/-- Replay of `TestMoveConstruct` and `TestMoveAssign`: moving from a
(size 3, capacity 40) buffer transfers size, capacity and pointer; the
source afterwards has size 0, capacity 0 and a null pointer. -/
theorem replay_move :
    (moveFrom (constructData (kTestData.take 3) 40 1)).1.size = 3 ∧
    capacity (moveFrom (constructData (kTestData.take 3) 40 1)).1 = 40 ∧
    dataPtr (moveFrom (constructData (kTestData.take 3) 40 1)).1 =
      dataPtr (constructData (kTestData.take 3) 40 1) ∧
    (moveFrom (constructData (kTestData.take 3) 40 1)).2.size = 0 ∧
    capacity (moveFrom (constructData (kTestData.take 3) 40 1)).2 = 0 ∧
    dataPtr (moveFrom (constructData (kTestData.take 3) 40 1)).2 = 0 := by
  decide

/-- Replay of `TestClear`: clearing a (size 15, capacity 15) buffer leaves
size 0, capacity 15 and the same non-null data pointer. -/
theorem replay_clear :
    (clear (setData emptyBuf (kTestData.take 15) 1)).size = 0 ∧
    capacity (clear (setData emptyBuf (kTestData.take 15) 1)) = 15 ∧
    dataPtr (clear (setData emptyBuf (kTestData.take 15) 1)) =
      dataPtr (setData emptyBuf (kTestData.take 15) 1) := by
  decide

/-- Replay of `TestLambdaSetAppend`: the callback route produces a buffer
equal to the pointer route with equal capacity, both `SetData` and
`AppendData` reporting 15 bytes written. -/
theorem replay_lambda_set_append :
    ((setDataF emptyBuf 15 lambdaSetter 1).bind fun p =>
      (appendDataF p.1 15 lambdaSetter 2).map fun q =>
        (p.2, q.2, bufferEqB q.1
            (appendData (setData emptyBuf (kTestData.take 15) 1)
              (kTestData.take 15) 2),
          capacity q.1 ==
            capacity (appendData (setData emptyBuf (kTestData.take 15) 1)
              (kTestData.take 15) 2))) =
      some (15, 15, true, true) := by
  decide

/-- Replay of `TestLambdaSetAppendSigned`: the same through the
`int8_t`-typed view. -/
theorem replay_lambda_set_append_signed :
    ((setDataFSigned emptyBuf 15
        (fun w => ((kTestData.take 15).map byteToInt8 ++ w.drop 15, 15)) 1).bind
      fun p =>
        (appendDataFSigned p.1 15
          (fun w => ((kTestData.take 15).map byteToInt8 ++ w.drop 15, 15)) 2).map
        fun q =>
          (p.2, q.2, bufferEqB q.1
              (appendData (setData emptyBuf (kTestData.take 15) 1)
                (kTestData.take 15) 2),
            capacity q.1 ==
              capacity (appendData (setData emptyBuf (kTestData.take 15) 1)
                (kTestData.take 15) 2))) =
      some (15, 15, true, true) := by
  decide

/-- Replay of `TestLambdaAppendEmpty`: appending through the callback on an
empty buffer equals the pointer-based `SetData` result, capacity included. -/
theorem replay_lambda_append_empty :
    ((appendDataF emptyBuf 15 lambdaSetter 1).map fun q =>
      (q.2, bufferEqB q.1 (setData emptyBuf (kTestData.take 15) 1),
        capacity q.1 == capacity (setData emptyBuf (kTestData.take 15) 1))) =
      some (15, true, true) := by
  decide

/-- Replay of `TestLambdaAppendPartial`: reserving 15 and writing 7 yields
size 7, capacity at least 7, non-null data. -/
theorem replay_lambda_append_partial :
    ((appendDataF emptyBuf 15 lambdaSetter7 1).map fun q =>
      (q.2, q.1.size, decide (7 ≤ capacity q.1), decide (dataPtr q.1 ≠ 0))) =
      some (7, 7, true, true) := by
  decide

/-! Claim theorems. -/

/-- C2: for every buffer in every state and every source range, after
`SetData(source, length)` the buffer satisfies
`size() == capacity() == length` and its first `length` bytes equal the
source bytes — the destructive resize makes capacity equal to the length
even when the previous capacity was larger. -/
theorem setData_destructive (b : Buffer) (src : List Nat) (fresh : Nat) :
    (setData b src fresh).size = src.length ∧
    capacity (setData b src fresh) = src.length ∧
    contents (setData b src fresh) = src :=
  ⟨setData_size b src fresh, setData_capacity b src fresh,
    setData_contents b src fresh⟩

/-- C5: moving from a buffer (the explicit pass-ownership operation used
for both move construction and move assignment) transfers its size,
capacity, storage address and logical bytes unchanged to the destination,
and the source afterwards reports size 0, capacity 0 and a null data
pointer. -/
theorem moveFrom_transfer (b : Buffer) :
    (moveFrom b).1.size = b.size ∧
    capacity (moveFrom b).1 = capacity b ∧
    dataPtr (moveFrom b).1 = dataPtr b ∧
    contents (moveFrom b).1 = contents b ∧
    (moveFrom b).2.size = 0 ∧
    capacity (moveFrom b).2 = 0 ∧
    dataPtr (moveFrom b).2 = 0 :=
  ⟨rfl, rfl, rfl, rfl, rfl, rfl, rfl⟩

/-- C7: `Buffer(count, capacity)` with a requested capacity smaller than
`count` is exactly the contract-violation case (modelled as `none`, the
fatal precondition failure — not a recoverable error and not a silent
max); whenever `capacity ≥ count` construction succeeds with
`size() == count` and `capacity() == capacity`. -/
theorem construct_contract (count cap fresh : Nat) :
    (construct count cap fresh = none ↔ cap < count) ∧
    (∀ b, construct count cap fresh = some b →
      b.size = count ∧ capacity b = cap) := by
  constructor
  · constructor
    · intro hn
      by_contra hc
      unfold construct at hn
      rw [if_neg hc] at hn
      exact Option.noConfusion hn
    · intro hlt
      unfold construct
      rw [if_pos hlt]
  · intro b hb
    unfold construct at hb
    split at hb
    · exact Option.noConfusion hb
    · cases hb
      exact ⟨rfl, by simp [capacity]⟩

/-- C7 witness: at `count = 2`, `capacity = 5` construction succeeds with
size 2 and capacity 5, and the contract-violation characterization holds. -/
theorem construct_contract_witness :
    construct 2 5 9 = some ⟨9, List.replicate 5 0, 2⟩ ∧
    (⟨9, List.replicate 5 0, 2⟩ : Buffer).size = 2 ∧
    capacity ⟨9, List.replicate 5 0, 2⟩ = 5 ∧
    ¬construct 2 5 9 = none :=
  ⟨by decide,
    ((construct_contract 2 5 9).2 _ (by decide)).1,
    ((construct_contract 2 5 9).2 _ (by decide)).2,
    fun hn => absurd ((construct_contract 2 5 9).1.mp hn) (by decide)⟩

/-- C8: buffer equality holds exactly when the sizes agree and the bytes
in `[0, size)` agree; capacity plays no role — changing only the capacity
of either side (via `EnsureCapacity`) never changes the comparison. -/
theorem bufferEqB_spec :
    (∀ a b : Buffer, bufferEqB a b = true ↔
      a.size = b.size ∧ contents a = contents b) ∧
    (∀ a b : Buffer, ∀ n m f1 f2 : Nat, WF a → WF b →
      bufferEqB (ensureCapacity a n f1) (ensureCapacity b m f2) =
        bufferEqB a b) := by
  constructor
  · exact bufferEqB_eq_true_iff
  · intro a b n m f1 f2 ha hb
    unfold bufferEqB
    rw [ensure_size, ensure_size, ensure_contents a n f1 ha.1,
      ensure_contents b m f2 hb.1]

/-- C8 witness: two buffers with the same three logical bytes but
capacities 3 and 13 (after growing one side's capacity) still compare
equal, via the capacity-irrelevance part of the theorem. -/
theorem bufferEqB_spec_witness :
    WF (constructData (kTestData.take 3) 0 1) ∧
    WF (constructData (kTestData.take 3) 10 2) ∧
    bufferEqB (ensureCapacity (constructData (kTestData.take 3) 0 1) 13 5)
        (ensureCapacity (constructData (kTestData.take 3) 10 2) 0 6) =
      bufferEqB (constructData (kTestData.take 3) 0 1)
        (constructData (kTestData.take 3) 10 2) ∧
    bufferEqB (constructData (kTestData.take 3) 0 1)
      (constructData (kTestData.take 3) 10 2) = true :=
  ⟨by decide, by decide,
    bufferEqB_spec.2 _ _ 13 0 5 6 (by decide) (by decide), by decide⟩

/-- C9: on a freshly default-constructed buffer, the callback-based
`AppendData(length, f)` is exactly the callback-based
`SetData(length, f)` — same resulting buffer (size, bytes, capacity and
even storage address) and same written count, for every length, callback
and allocation. -/
theorem append_empty_eq_set (len : Nat) (f : List Nat → List Nat × Nat)
    (fresh : Nat) :
    appendDataF emptyBuf len f fresh = setDataF emptyBuf len f fresh := rfl

/-- C3 counterexample: a buffer that held 15 bytes and was then cleared
has `size() == 0` but a non-null data pointer — `TestClear` in
`src/base/buffer_unittest.cc` asserts exactly this pointer equality, so
`data()` is not null for every size-0 buffer. -/
theorem data_null_cex :
    (clear (setData emptyBuf (kTestData.take 15) 1)).size = 0 ∧
    dataPtr (clear (setData emptyBuf (kTestData.take 15) 1)) ≠ 0 := by
  decide

/-- C3 amended: `data()` is null exactly when the buffer owns no storage
(capacity 0); in particular a moved-from buffer reports a null pointer,
while `Clear()` leaves the data pointer (null or not) unchanged. -/
theorem data_null_iff (b : Buffer) (h : WF b) :
    (dataPtr b = 0 ↔ capacity b = 0) ∧
    dataPtr (moveFrom b).2 = 0 ∧
    dataPtr (clear b) = dataPtr b :=
  ⟨h.2, rfl, rfl⟩

/-- C3 witness: the amended characterization applied to a cleared 15-byte
buffer, whose pointer is non-null because its capacity is 15. -/
theorem data_null_iff_witness :
    WF (clear (setData emptyBuf (kTestData.take 15) 1)) ∧
    ((dataPtr (clear (setData emptyBuf (kTestData.take 15) 1)) = 0 ↔
      capacity (clear (setData emptyBuf (kTestData.take 15) 1)) = 0) ∧
     dataPtr (moveFrom (clear (setData emptyBuf (kTestData.take 15) 1))).2 = 0 ∧
     dataPtr (clear (clear (setData emptyBuf (kTestData.take 15) 1))) =
       dataPtr (clear (setData emptyBuf (kTestData.take 15) 1))) :=
  ⟨by decide, data_null_iff _ (by decide)⟩

/-- C4 counterexample: copying an empty buffer with no storage yields an
equal buffer whose capacity is the source's size, but its storage address
is not distinct from the source's — both data pointers are null — so the
distinct-address part of the claim fails for every buffer. -/
theorem copy_distinct_cex :
    bufferEqB (copyCtor emptyBuf 1) emptyBuf = true ∧
    capacity (copyCtor emptyBuf 1) = emptyBuf.size ∧
    dataPtr (copyCtor emptyBuf 1) = dataPtr emptyBuf := by
  decide

/-- C4 amended: copy construction (and copy assignment, which produces the
identical result) yields a buffer equal to the source whose capacity is
the source's size; its storage address is distinct from the source's
whenever the source is non-empty, while the copy of an empty source has a
null data pointer (coinciding with the source's pointer only when the
source also owns no storage). -/
theorem copy_compacts (b d : Buffer) (fresh : Nat) (h : WF b)
    (hfb : fresh ≠ b.addr) :
    bufferEqB (copyCtor b fresh) b = true ∧
    capacity (copyCtor b fresh) = b.size ∧
    (0 < b.size → dataPtr (copyCtor b fresh) ≠ dataPtr b) ∧
    (b.size = 0 → dataPtr (copyCtor b fresh) = 0) ∧
    copyAssign d b fresh = copyCtor b fresh := by
  have hlen : (contents b).length = b.size := by
    have h1 := h.1
    simp only [contents, List.length_take, capacity] at h1 ⊢
    omega
  refine ⟨?_, ?_, ?_, ?_, rfl⟩
  · rw [bufferEqB_eq_true_iff]
    constructor
    · exact hlen
    · show (contents b ++ _).take (contents b).length = contents b
      exact List.take_left' rfl
  · show (contents b ++ List.replicate
      (max (contents b).length 0 - (contents b).length) 0).length = b.size
    simp only [List.length_append, List.length_replicate, Nat.max_zero]
    omega
  · intro hpos
    show (if max (contents b).length 0 = 0 then 0 else fresh) ≠ b.addr
    rw [if_neg (by rw [Nat.max_zero, hlen]; omega)]
    exact hfb
  · intro hzero
    show (if max (contents b).length 0 = 0 then 0 else fresh) = 0
    rw [if_pos (by rw [Nat.max_zero, hlen, hzero])]

/-- C4 witness: applying the amended theorem to a 16-byte buffer at
address 1 with fresh address 2: the copy is equal, compacted to capacity
16 (its size), and lives at a distinct address. -/
theorem copy_compacts_witness :
    WF (constructData kTestData 0 1) ∧
    bufferEqB (copyCtor (constructData kTestData 0 1) 2)
      (constructData kTestData 0 1) = true ∧
    capacity (copyCtor (constructData kTestData 0 1) 2) =
      (constructData kTestData 0 1).size ∧
    dataPtr (copyCtor (constructData kTestData 0 1) 2) ≠
      dataPtr (constructData kTestData 0 1) :=
  ⟨by decide,
    (copy_compacts (constructData kTestData 0 1) emptyBuf 2 (by decide)
      (by decide)).1,
    (copy_compacts (constructData kTestData 0 1) emptyBuf 2 (by decide)
      (by decide)).2.1,
    (copy_compacts (constructData kTestData 0 1) emptyBuf 2 (by decide)
      (by decide)).2.2.1 (by decide)⟩

/-- C6: `EnsureCapacity(n)` with `n ≤ capacity()` changes nothing at all
(same capacity, size, contents and data address — no reallocation); with
`n > capacity()` it makes the capacity at least `n`, keeps the size, and
preserves all `size()` bytes at their offsets; afterwards any append that
stays within the ensured capacity keeps the data address. -/
theorem ensureCapacity_spec (b : Buffer) (n fresh : Nat) (h : WF b) :
    (n ≤ capacity b → ensureCapacity b n fresh = b) ∧
    (capacity b < n →
      n ≤ capacity (ensureCapacity b n fresh) ∧
      (ensureCapacity b n fresh).size = b.size ∧
      (ensureCapacity b n fresh).storage.take b.size =
        b.storage.take b.size) ∧
    (∀ src f2,
      (ensureCapacity b n fresh).size + src.length ≤
          capacity (ensureCapacity b n fresh) →
      dataPtr (appendData (ensureCapacity b n fresh) src f2) =
        dataPtr (ensureCapacity b n fresh)) := by
  refine ⟨ensure_of_le b n fresh,
    fun hlt => ⟨?_, ensure_size b n fresh, ensure_take b n fresh h.1⟩,
    fun src f2 hle => append_addr_of_le _ src f2 hle⟩
  rw [ensure_capacity_max b n fresh h.1]
  omega

/-- C6 witness: on a 5-byte buffer, `EnsureCapacity(3)` is the identity,
and an in-capacity append after `EnsureCapacity(12)` keeps the pointer. -/
theorem ensureCapacity_spec_witness :
    WF (constructData (kTestData.take 5) 0 1) ∧
    (3 ≤ capacity (constructData (kTestData.take 5) 0 1) ∧
      ensureCapacity (constructData (kTestData.take 5) 0 1) 3 2 =
        constructData (kTestData.take 5) 0 1) ∧
    ((ensureCapacity (constructData (kTestData.take 5) 0 1) 12 2).size +
        (kTestData.take 5).length ≤
      capacity (ensureCapacity (constructData (kTestData.take 5) 0 1) 12 2) ∧
      dataPtr (appendData
          (ensureCapacity (constructData (kTestData.take 5) 0 1) 12 2)
          (kTestData.take 5) 3) =
        dataPtr (ensureCapacity (constructData (kTestData.take 5) 0 1) 12 2)) :=
  ⟨by decide,
    ⟨by decide,
      (ensureCapacity_spec (constructData (kTestData.take 5) 0 1) 3 2
        (by decide)).1 (by decide)⟩,
    ⟨by decide,
      (ensureCapacity_spec (constructData (kTestData.take 5) 0 1) 12 2
        (by decide)).2.2 (kTestData.take 5) 3 (by decide)⟩⟩

/-- C1 counterexample: `AppendData(0, f)` on an empty buffer, with a
callback that writes and reports 0 ≤ 0 bytes, leaves the buffer's storage
null — size advances by the written 0 and capacity is valid, but the
claim's "storage is non-null" conjunct fails at this input. -/
theorem appendDataF_nonnull_cex :
    appendDataF emptyBuf 0 (fun v => (v, 0)) 1 = some (emptyBuf, 0) ∧
    dataPtr emptyBuf = 0 := by
  decide

/-- C1 amended: for every buffer and fill callback handed the reserved
`length`-byte view that writes `written ≤ length` bytes,
`AppendData(length, callback)` advances the size by exactly the written
count (not the reserved length), keeps `size() ≤ capacity()`, stores the
callback's first `written` bytes at the old end of data, and leaves the
storage non-null provided the reserved length is positive or the buffer
already owned storage; reserving 15 and writing 7 on an empty buffer
(the witness) yields `size() == 7` and `capacity() ≥ 7`. -/
theorem appendDataF_spec (b : Buffer) (len : Nat)
    (f : List Nat → List Nat × Nat) (fresh : Nat) (v : List Nat) (w : Nat)
    (hb : WF b) (hf : fresh ≠ 0)
    (hv : f (((setSize b (b.size + len) fresh).storage.drop b.size).take len)
      = (v, w))
    (hw : w ≤ len) (hlen : v.length = len) :
    ∃ b2, appendDataF b len f fresh = some (b2, w) ∧
      b2.size = b.size + w ∧
      b2.size ≤ capacity b2 ∧
      (b2.storage.drop b.size).take w = v.take w ∧
      ((0 < len ∨ dataPtr b ≠ 0) → dataPtr b2 ≠ 0) := by
  have hstor : capacity (setSize b (b.size + len) fresh) =
      max (capacity b) (b.size + len) :=
    ensure_capacity_max b (b.size + len) fresh hb.1
  refine ⟨⟨(setSize b (b.size + len) fresh).addr,
    writeAt (setSize b (b.size + len) fresh).storage b.size v, b.size + w⟩,
    ?_, rfl, ?_, ?_, ?_⟩
  · simp only [appendDataF]
    rw [hv, if_pos ⟨hw, hlen⟩]
  · show b.size + w ≤
      (writeAt (setSize b (b.size + len) fresh).storage b.size v).length
    have h1 : b.size + v.length ≤
        (setSize b (b.size + len) fresh).storage.length := by
      simp only [capacity] at hstor
      omega
    rw [writeAt_length _ _ _ h1]
    simp only [capacity] at hstor
    omega
  · have hoff : b.size ≤ (setSize b (b.size + len) fresh).storage.length := by
      simp only [capacity] at hstor
      omega
    have hreg := writeAt_region (setSize b (b.size + len) fresh).storage
      b.size v hoff
    have hmin : min w v.length = w := by omega
    have h2 : ((writeAt (setSize b (b.size + len) fresh).storage
        b.size v).drop b.size).take w =
        (((writeAt (setSize b (b.size + len) fresh).storage
          b.size v).drop b.size).take v.length).take w := by
      rw [List.take_take, hmin]
    rw [h2, hreg]
  · intro hd
    show (setSize b (b.size + len) fresh).addr ≠ 0
    rw [show (setSize b (b.size + len) fresh).addr =
      (ensureCapacity b (b.size + len) fresh).addr from rfl]
    by_cases hcc : b.size + len ≤ capacity b
    · rw [ensure_of_le b (b.size + len) fresh hcc]
      rcases hd with hlen0 | hptr
      · intro h0
        have hc0 := hb.2.mp h0
        omega
      · exact hptr
    · rw [ensure_addr_of_lt b (b.size + len) fresh (by omega)]
      exact hf

/-- C1 witness: reserving 15 bytes on an empty buffer with a callback
that writes 7 yields size 7, capacity at least 7 and non-null storage. -/
theorem appendDataF_spec_witness :
    WF emptyBuf ∧
    lambdaSetter7 (((setSize emptyBuf (emptyBuf.size + 15) 1).storage.drop
        emptyBuf.size).take 15) = (kTestData.take 7 ++ List.replicate 8 0, 7) ∧
    (∃ b2, appendDataF emptyBuf 15 lambdaSetter7 1 = some (b2, 7) ∧
      b2.size = emptyBuf.size + 7 ∧
      b2.size ≤ capacity b2 ∧
      (b2.storage.drop emptyBuf.size).take 7 =
        (kTestData.take 7 ++ List.replicate 8 0).take 7 ∧
      ((0 < 15 ∨ dataPtr emptyBuf ≠ 0) → dataPtr b2 ≠ 0)) :=
  ⟨by decide, by decide,
    appendDataF_spec emptyBuf 15 lambdaSetter7 1
      (kTestData.take 7 ++ List.replicate 8 0) 7 (by decide) (by decide)
      (by decide) (by decide) (by decide)⟩

/-- C10 counterexample: two buffers that compare equal (both size 0) but
have capacities 16 and 0; the callback overload on the first, filling all
15 reserved bytes with exactly the source bytes, yields a buffer equal to
the pointer-based `AppendData` on the second — but with capacity 16
against 15, so the claimed capacity equality fails. -/
theorem lambda_pointer_equiv_cex :
    bufferEqB (constructData [] 16 1) emptyBuf = true ∧
    ((appendDataF (constructData [] 16 1) 15
        (fun _ => (kTestData.take 15, 15)) 2).map
      fun q => (bufferEqB q.1 (appendData emptyBuf (kTestData.take 15) 3),
        capacity q.1,
        capacity (appendData emptyBuf (kTestData.take 15) 3))) =
      some (true, 16, 15) := by
  decide

/-- C10 amended: starting from buffers with equal contents and equal
capacity, a callback that fills all reserved bytes with the same values
as the source range makes the callback-based overloads agree with the
pointer-based ones — equal resulting buffer and equal capacity — both
through the default unsigned view and through the `int8_t`-typed view;
for the `SetData` overloads this additionally requires the starting
capacity to be at most the reserved length (the pointer-based `SetData`
compacts capacity to the length while the callback-based one only
reserves room). -/
theorem lambda_pointer_equiv (a b : Buffer) (src : List Nat) (f1 f2 : Nat)
    (ha : WF a) (hb : WF b) (heq : bufferEqB a b = true)
    (hcap : capacity a = capacity b) (hbytes : ∀ x ∈ src, x < 256) :
    appendDataF a src.length (fun _ => (src, src.length)) f1 =
      some (appendData a src f1, src.length) ∧
    appendDataFSigned a src.length
        (fun _ => (src.map byteToInt8, src.length)) f1 =
      some (appendData a src f1, src.length) ∧
    bufferEqB (appendData a src f1) (appendData b src f2) = true ∧
    capacity (appendData a src f1) = capacity (appendData b src f2) ∧
    (capacity a ≤ src.length →
      bufferEqB (appendData (clear a) src f1) (setData b src f2) = true ∧
      capacity (appendData (clear a) src f1) =
        capacity (setData b src f2) ∧
      setDataF a src.length (fun _ => (src, src.length)) f1 =
        some (appendData (clear a) src f1, src.length) ∧
      setDataFSigned a src.length
          (fun _ => (src.map byteToInt8, src.length)) f1 =
        some (appendData (clear a) src f1, src.length)) := by
  obtain ⟨hsz, hcont⟩ := (bufferEqB_eq_true_iff a b).mp heq
  refine ⟨appendDataF_const a src f1, appendDataFSigned_const a src f1 hbytes,
    ?_, ?_, ?_⟩
  · rw [bufferEqB_eq_true_iff]
    constructor
    · rw [append_size, append_size, hsz]
    · rw [append_contents a src f1 ha.1, append_contents b src f2 hb.1, hcont]
  · rw [append_capacity a src f1 ha.1, append_capacity b src f2 hb.1,
      hcap, hsz]
  · intro hle
    refine ⟨?_, ?_, appendDataF_const (clear a) src f1,
      appendDataFSigned_const (clear a) src f1 hbytes⟩
    · rw [bufferEqB_eq_true_iff]
      constructor
      · rw [append_size, setData_size]
        simp [clear]
      · rw [append_contents (clear a) src f1 (Nat.zero_le _), clear_contents,
          setData_contents]
        rfl
    · rw [append_capacity (clear a) src f1 (Nat.zero_le _), setData_capacity]
      show max (capacity a) (0 + src.length) = src.length
      omega

/-- C10 witness: on empty buffers of equal (zero) capacity, the callback
route and the pointer route produce equal buffers with equal capacity. -/
theorem lambda_pointer_equiv_witness :
    WF emptyBuf ∧ bufferEqB emptyBuf emptyBuf = true ∧
    (∀ x ∈ kTestData.take 15, x < 256) ∧
    bufferEqB (appendData emptyBuf (kTestData.take 15) 1)
      (appendData emptyBuf (kTestData.take 15) 2) = true ∧
    capacity (appendData emptyBuf (kTestData.take 15) 1) =
      capacity (appendData emptyBuf (kTestData.take 15) 2) :=
  ⟨by decide, by decide, by decide,
    (lambda_pointer_equiv emptyBuf emptyBuf (kTestData.take 15) 1 2
      (by decide) (by decide) (by decide) rfl (by decide)).2.2.1,
    (lambda_pointer_equiv emptyBuf emptyBuf (kTestData.take 15) 1 2
      (by decide) (by decide) (by decide) rfl (by decide)).2.2.2.1⟩

end RtcBuffer
